import Mathlib

/-!
Verification of the pydantic2 session state engine
(`src/pydantic2/agents/session_db_manager.py` and
`src/pydantic2/agents/progress_form.py`).

The embedding models the persistence layer (`SessionDBManager`), the
in-memory form engine (`BaseProgressForm`) and the orchestrator
(`determine_action`) as pure state-passing functions over an explicit
world (database rows, process-wide state cache, clock).  Python
exceptions are modelled with `Except Unit`; a `try/except` block that
returns a value corresponds to a `match` on the inner result.  The
external Generation Service is a parameter (a total function models the
"service returned a result" hypothesis of the claims).
-/

namespace Pydantic2

/-- Python values that can appear in a form state dictionary.  `blob`
stands for a Python object that `json.dumps` cannot serialize (for
example a `set`); every other constructor is JSON-representable. -/
inductive PyVal where
  | jnull
  | jbool (b : Bool)
  | jint (n : Int)
  | jstr (s : String)
  | jlist (xs : List PyVal)
  | jdict (kvs : List (String × PyVal))
  | blob

mutual

/-- Whether `json.dumps` succeeds on the value (no `blob` inside). -/
def PyVal.serializable : PyVal → Bool
  | .jnull => true
  | .jbool _ => true
  | .jint _ => true
  | .jstr _ => true
  | .jlist xs => serializableList xs
  | .jdict kvs => serializableKVs kvs
  | .blob => false

/-- `serializable` on each element of a list. -/
def serializableList : List PyVal → Bool
  | [] => true
  | v :: vs => v.serializable && serializableList vs

/-- `serializable` on each value of a key-value list. -/
def serializableKVs : List (String × PyVal) → Bool
  | [] => true
  | kv :: kvs => kv.2.serializable && serializableKVs kvs

end

/-- Python truthiness of a value, as used by `if self._last_state and ...`
in `SessionDBManager.get_latest_state`. -/
def PyVal.truthy : PyVal → Bool
  | .jnull => false
  | .jbool b => b
  | .jint n => n != 0
  | .jstr s => s ≠ ""
  | .jlist xs => !xs.isEmpty
  | .jdict kvs => !kvs.isEmpty
  | .blob => true

/-- The text stored in the `state_data` column: either text that parses
as the JSON value `v`, or text on which `json.loads` raises. -/
inductive StoredData where
  | valid (v : PyVal)
  | corrupt (s : String)

/-- `json.loads`: `none` models a raised `JSONDecodeError`. -/
def jsonLoads : StoredData → Option PyVal
  | .valid v => some v
  | .corrupt _ => none

/-- `json.dumps`: `none` models a raised `TypeError` on a value that is
not JSON-serializable. -/
def jsonDumps (v : PyVal) : Option StoredData :=
  if v.serializable then some (.valid v) else none

/-- A row of the `Session` table. -/
structure DBSession where
  id : String
  user_id : Option String
  client_id : Option String
  form_class : Option String
  active : Bool
  created_at : Nat
  last_active : Nat

/-- A row of the `SessionState` table. -/
structure DBStateRow where
  session_id : String
  state_data : StoredData
  progress : Option Int
  timestamp : Nat

/-- The sqlite database: session rows, append-only state rows, and the
counter backing `uuid.uuid4` generation of fresh session ids. -/
structure Database where
  sessions : List DBSession
  states : List DBStateRow
  nextId : Nat

/-- The process-wide world: the database, the module-level
`_STATE_CACHE` dictionary, the current clock (both `time.time()` and
`datetime.now()` read it), and a flag modelling an exception raised by
the store inside the state read/write `try` blocks (store unavailable). -/
structure World where
  db : Database
  stateCache : List (String × Nat × PyVal)
  clock : Nat
  storeDown : Bool

/-- `_CACHE_TIMEOUT`. -/
def cacheTimeout : Nat := 30

/-- Dictionary read of `_STATE_CACHE`. -/
def cacheGet (c : List (String × Nat × PyVal)) (k : String) : Option (Nat × PyVal) :=
  (c.find? (fun e => e.1 == k)).map (fun e => e.2)

/-- Dictionary write of `_STATE_CACHE` (overwrites the key). -/
def cacheSet (c : List (String × Nat × PyVal)) (k : String) (ts : Nat) (v : PyVal) :
    List (String × Nat × PyVal) :=
  (k, ts, v) :: c.filter (fun e => !(e.1 == k))

/-- The mutable instance state of `SessionDBManager`. -/
structure Manager where
  session_id : Option String
  cachedSession : Option DBSession
  last_state_fetch_time : Nat
  last_state : Option PyVal

/-- Lookup of `Session.get(Session.id == sid)`. -/
def findSession (db : Database) (sid : String) : Option DBSession :=
  db.sessions.find? (fun s => s.id == sid)

/-- `SessionDBManager._create_session`: creates a session row with a
freshly generated id and binds the manager to it. -/
def createSession (w : World) (m : Manager)
    (user_id client_id form_class : Option String) :
    World × Manager × DBSession :=
  let newId := "session-" ++ toString w.db.nextId
  let s : DBSession :=
    { id := newId, user_id := user_id, client_id := client_id,
      form_class := form_class, active := true,
      created_at := w.clock, last_active := w.clock }
  let db' := { w.db with sessions := w.db.sessions ++ [s], nextId := w.db.nextId + 1 }
  ({ w with db := db' },
   { m with session_id := some newId, cachedSession := some s }, s)

/-- `SessionDBManager.get_session`: returns the cached session object if
set; otherwise looks up `session_id` (a falsy empty id is skipped, and a
missing row falls through); finally creates a new session when
`create_if_missing` is true. -/
def getSession (w : World) (m : Manager) (create_if_missing : Bool)
    (user_id client_id form_class : Option String) :
    World × Manager × Option DBSession :=
  match m.cachedSession with
  | some s => (w, m, some s)
  | none =>
    let found : Option DBSession :=
      match m.session_id with
      | some sid => if sid = "" then none else findSession w.db sid
      | none => none
    match found with
    | some s => (w, { m with cachedSession := some s }, some s)
    | none =>
      if create_if_missing then
        let r := createSession w m user_id client_id form_class
        (r.1, r.2.1, some r.2.2)
      else (w, m, none)

/-- `SessionDBManager.update_session_activity`: touches
`Session.last_active`; its internal `try/except` turns a store error
into a `false` return. -/
def updateSessionActivity (w : World) (m : Manager) : World × Manager × Bool :=
  let r := getSession w m false none none none
  match r.2.2 with
  | none => (r.1, r.2.1, false)
  | some s =>
    if r.1.storeDown then (r.1, r.2.1, false)
    else
      let touch := fun (t : DBSession) =>
        if t.id == s.id then { t with last_active := r.1.clock } else t
      let db' := { r.1.db with sessions := r.1.db.sessions.map touch }
      ({ r.1 with db := db' },
       { r.2.1 with cachedSession := some { s with last_active := r.1.clock } },
       true)

/-- The `state_data` argument of `save_state`: a Python dict or an
already serialized string. -/
inductive SaveInput where
  | dict (v : PyVal)
  | text (s : StoredData)

/-- `SessionDBManager.save_state`.  The `json.dumps` call on a dict
input sits outside the `try` block, so a serialization failure is a
raised exception (`Except.error`); failures inside the `try` block
(store unavailable, `json.loads` failure while updating the cache) are
reported as a `false` return. -/
def saveState (w : World) (m : Manager) (input : SaveInput) (progress : Option Int)
    (user_id client_id form_class : Option String) :
    Except Unit (World × Manager × Bool) :=
  let g := getSession w m true user_id client_id form_class
  match g.2.2 with
  | none => .ok (g.1, g.2.1, false)
  | some session =>
    match (match input with
           | .dict v => jsonDumps v
           | .text s => some s) with
    | none => .error ()
    | some state_json =>
      let u := updateSessionActivity g.1 g.2.1
      let w₂ := u.1
      let m₂ := u.2.1
      if w₂.storeDown then .ok (w₂, m₂, false)
      else
        let timestamp := w₂.clock
        let row : DBStateRow :=
          { session_id := session.id, state_data := state_json,
            progress := progress, timestamp := timestamp }
        let w₃ := { w₂ with db := { w₂.db with states := w₂.db.states ++ [row] } }
        match jsonLoads state_json with
        | none => .ok (w₃, m₂, false)
        | some v =>
          let w₄ := { w₃ with stateCache := cacheSet w₃.stateCache session.id timestamp v }
          let m₃ := { m₂ with last_state := some v, last_state_fetch_time := w₄.clock }
          .ok (w₄, m₃, true)

/-- The row returned by
`SessionState.select().where(...).order_by(timestamp.desc()).get()`. -/
def latestRowFor (states : List DBStateRow) (sid : String) : Option DBStateRow :=
  (states.filter (fun r => r.session_id == sid)).foldl
    (fun acc r =>
      match acc with
      | none => some r
      | some b => if r.timestamp > b.timestamp then some r else some b)
    none

/-- `SessionDBManager.get_latest_state`: instance cache (truthiness and
TTL checked), then the process-wide cache (TTL checked), then the
database; a `JSONDecodeError` or store error during the database read is
caught and reported as `none`. -/
def getLatestState (w : World) (m : Manager) (use_cache : Bool) :
    World × Manager × Option PyVal :=
  let g := getSession w m false none none none
  match g.2.2 with
  | none => (g.1, g.2.1, none)
  | some session =>
    let w₁ := g.1
    let m₁ := g.2.1
    let sid := session.id
    let localHit : Option PyVal :=
      if use_cache then
        match m₁.last_state with
        | some st =>
          if st.truthy && decide (w₁.clock - m₁.last_state_fetch_time < cacheTimeout)
          then some st else none
        | none => none
      else none
    match localHit with
    | some st => (w₁, m₁, some st)
    | none =>
      let globalHit : Option (Nat × PyVal) :=
        if use_cache then
          match cacheGet w₁.stateCache sid with
          | some (ts, sd) =>
            if w₁.clock - ts < cacheTimeout then some (ts, sd) else none
          | none => none
        else none
      match globalHit with
      | some (_, sd) =>
        (w₁, { m₁ with last_state := some sd, last_state_fetch_time := w₁.clock }, some sd)
      | none =>
        if w₁.storeDown then (w₁, m₁, none)
        else
          match latestRowFor w₁.db.states sid with
          | none => (w₁, m₁, none)
          | some row =>
            match jsonLoads row.state_data with
            | none => (w₁, m₁, none)
            | some v =>
              let w₂ := { w₁ with stateCache := cacheSet w₁.stateCache sid row.timestamp v }
              let m₂ := { m₁ with last_state := some v, last_state_fetch_time := w₂.clock }
              (w₂, m₂, some v)

/-- `SessionDBManager.temporary_session`: swaps `session_id` and the
cached `_session` object for the scope of `body` and restores them in a
`finally`, so the restoration happens for every outcome of the body
(the outcome value `a` may be an `Except` modelling a raised
exception). -/
def temporarySessionM {α : Type} (w : World) (m : Manager) (sid : String)
    (body : World → Manager → World × Manager × α) : World × Manager × α :=
  let original_id := m.session_id
  let original_session := m.cachedSession
  let m₁ := { m with session_id := some sid, cachedSession := none }
  let r := body w m₁
  (r.1, { r.2.1 with session_id := original_id, cachedSession := original_session },
   r.2.2)

/-- `FormState` (`progress_form.py`): the in-memory state of the form
engine.  `progress` is a plain `int` field with no declared bounds;
`confidence` is declared with `ge=0, le=1` and is the only validated
numeric field. -/
structure FormState where
  form : PyVal
  progress : Int
  prev_question : String
  prev_answer : String
  feedback : String
  confidence : Int
  next_question : String
  next_question_explanation : String

/-- The caller-declared form class: `parse` models `form_class(**data)`
(`none` is a raised pydantic validation error), `empty` models
`form_class()`, and `name` is `form_class.__name__`. -/
structure FormSchema where
  name : String
  parse : PyVal → Option PyVal
  empty : PyVal

/-- `dict.get(k)` on the kwargs of a state dictionary. -/
def dictLookup (kvs : List (String × PyVal)) (k : String) : Option PyVal :=
  ((kvs.find? (fun kv => kv.1 == k)).map (fun kv => kv.2))

/-- `state_data.get(k, '')` followed by pydantic string validation. -/
def getStrD (kvs : List (String × PyVal)) (k : String) : Option String :=
  match dictLookup kvs k with
  | none => some ""
  | some (.jstr s) => some s
  | some _ => none

/-- `state_data.get(k, 0)` followed by pydantic int validation; no
range constraint is applied. -/
def getIntD (kvs : List (String × PyVal)) (k : String) : Option Int :=
  match dictLookup kvs k with
  | none => some 0
  | some (.jint n) => some n
  | some _ => none

/-- Construction of `FormState[form_class](form=form_class(**form_data),
progress=..., ...)` from a loaded state dictionary, as written
identically in `_restore_latest_state_from_db` and
`refresh_current_state`; `none` models any exception raised during the
construction (non-dict data, form validation error, field type error,
confidence out of its `ge=0, le=1` bounds). -/
def buildFormState (schema : FormSchema) (state_data : PyVal) : Option FormState :=
  match state_data with
  | .jdict d =>
    match schema.parse ((dictLookup d "form").getD (.jdict [])) with
    | none => none
    | some form =>
      match getIntD d "progress", getStrD d "prev_question", getStrD d "prev_answer",
            getStrD d "feedback", getIntD d "confidence" with
      | some progress, some prev_question, some prev_answer, some feedback,
        some confidence =>
        if confidence < 0 ∨ 1 < confidence then none
        else
          match getStrD d "next_question", getStrD d "next_question_explanation" with
          | some next_question, some nqe =>
            some { form := form, progress := progress,
                   prev_question := prev_question, prev_answer := prev_answer,
                   feedback := feedback, confidence := confidence,
                   next_question := next_question,
                   next_question_explanation := nqe }
          | _, _ => none
      | _, _, _, _, _ => none
  | _ => none

/-- `FormState[form_class](form=form_class())`: the fresh default state
(every non-form field at its pydantic default). -/
def freshState (schema : FormSchema) : FormState :=
  { form := schema.empty, progress := 0, prev_question := "", prev_answer := "",
    feedback := "", confidence := 0, next_question := "",
    next_question_explanation := "" }

/-- `self.current_state.model_dump()`. -/
def FormState.dump (st : FormState) : PyVal :=
  .jdict [("form", st.form), ("progress", .jint st.progress),
          ("prev_question", .jstr st.prev_question),
          ("prev_answer", .jstr st.prev_answer),
          ("feedback", .jstr st.feedback),
          ("confidence", .jint st.confidence),
          ("next_question", .jstr st.next_question),
          ("next_question_explanation", .jstr st.next_question_explanation)]

/-- The mutable instance state of `BaseProgressForm`: its
`SessionDBManager`, the in-memory `current_state`, and the
memory-only `_state_dirty` flag. -/
structure Engine where
  mgr : Manager
  current_state : FormState
  state_dirty : Bool
  user_id : Option String
  client_id : Option String

/-- `BaseProgressForm._restore_latest_state_from_db`: reads the latest
state through the cache and rebuilds `current_state` from it; any
restoration failure falls back to a fresh default state marked dirty. -/
def restoreLatestStateFromDB (schema : FormSchema) (w : World) (e : Engine) :
    World × Engine :=
  let g := getLatestState w e.mgr true
  match g.2.2 with
  | some sd =>
    match buildFormState schema sd with
    | some st =>
      (g.1, { e with mgr := g.2.1, current_state := st, state_dirty := false })
    | none =>
      (g.1, { e with mgr := g.2.1, current_state := freshState schema,
                     state_dirty := true })
  | none =>
    (g.1, { e with mgr := g.2.1, current_state := freshState schema,
                   state_dirty := true })

/-- `BaseProgressForm.temporary_session`: enters the store-level
`temporary_session`, snapshots `current_state` and `_state_dirty`,
restores the temporary session's state, runs the body, and restores the
snapshots in a `finally` (engine fields first, then the store's
`session_id` and `_session`); the body's outcome — possibly a raised
exception, modelled by an `Except` value — passes through unchanged. -/
def engineTemporarySession {α : Type} (schema : FormSchema) (sid : String)
    (body : World → Engine → World × Engine × α) (w : World) (e : Engine) :
    World × Engine × α :=
  let original_id := e.mgr.session_id
  let original_session := e.mgr.cachedSession
  let m₁ := { e.mgr with session_id := some sid, cachedSession := none }
  let e₁ := { e with mgr := m₁ }
  let old_state := e₁.current_state
  let old_dirty := e₁.state_dirty
  let r := restoreLatestStateFromDB schema w e₁
  let b := body r.1 r.2
  let e₄ := { b.2.1 with current_state := old_state, state_dirty := old_dirty }
  let m₅ := { e₄.mgr with session_id := original_id, cachedSession := original_session }
  (b.1, { e₄ with mgr := m₅ }, b.2.2)

/-- `BaseProgressForm.refresh_current_state`: with no (or a falsy)
session id, or no retrievable latest state, or a failing state
construction, returns `false` and touches nothing but the manager's
caches; otherwise overwrites `current_state` and returns `true`.  The
dirty flag is never modified. -/
def refreshCurrentState (schema : FormSchema) (w : World) (e : Engine) :
    World × Engine × Bool :=
  match e.mgr.session_id with
  | none => (w, e, false)
  | some sid =>
    if sid = "" then (w, e, false)
    else
      let g := getLatestState w e.mgr true
      match g.2.2 with
      | none => (g.1, { e with mgr := g.2.1 }, false)
      | some latest =>
        match buildFormState schema latest with
        | some st => (g.1, { e with mgr := g.2.1, current_state := st }, true)
        | none => (g.1, { e with mgr := g.2.1 }, false)

/-- `BaseProgressForm._do_save_state`: dumps `current_state` and hands
it to `save_state`; the boolean result is only logged. -/
def doSaveState (schema : FormSchema) (w : World) (e : Engine) :
    Except Unit (World × Engine) :=
  match saveState w e.mgr (.dict e.current_state.dump)
      (some e.current_state.progress) e.user_id e.client_id (some schema.name) with
  | .error () => .error ()
  | .ok r => .ok (r.1, { e with mgr := r.2.1 })

/-- `BaseProgressForm.save_current_state`: a no-op unless the state is
dirty or `force` is passed; saves through a temporary session when a
different explicit `session_id` is given; afterwards unconditionally
sets `_state_dirty = False` (an exception escaping the save skips that
assignment). -/
def saveCurrentState (schema : FormSchema) (session_id : Option String)
    (force : Bool) (w : World) (e : Engine) : Except Unit (World × Engine) :=
  if !e.state_dirty && !force then .ok (w, e)
  else
    let afterSave : Except Unit (World × Engine) :=
      match session_id with
      | some sid =>
        if (some sid ≠ e.mgr.session_id) then
          let r := engineTemporarySession schema sid
            (fun w' e' =>
              match doSaveState schema w' e' with
              | .error () => (w', e', Except.error ())
              | .ok s => (s.1, s.2, Except.ok ()))
            w e
          match r.2.2 with
          | .error () => .error ()
          | .ok () => .ok (r.1, r.2.1)
        else doSaveState schema w e
      | none => doSaveState schema w e
    match afterSave with
    | .error () => .error ()
    | .ok s => .ok (s.1, { s.2 with state_dirty := false })

/-- The Q-and-A history carry of `_process_form_internal`: the state
returned by the Generation Service with
`result.prev_question = self.current_state.next_question` and
`result.prev_answer = message` written onto it. -/
def updatedState (gen : String → FormState → FormState) (message : String)
    (cur : FormState) : FormState :=
  { gen message cur with prev_question := cur.next_question,
                         prev_answer := message }

/-- `self.current_state = result; self._state_dirty = True`. -/
def markDirty (e : Engine) (st : FormState) : Engine :=
  { e with current_state := st, state_dirty := true }

/-- `BaseProgressForm._process_form_internal` with the Generation
Service call abstracted as the total function `gen` (the claims'
hypothesis that the service returned a result): the returned state gets
`prev_question := old.next_question` and `prev_answer := message`, is
installed as `current_state`, the dirty flag is set, and the state is
saved when `save` is true. -/
def processFormInternal (schema : FormSchema) (gen : String → FormState → FormState)
    (message : String) (save : Bool) (w : World) (e : Engine) :
    Except Unit (World × Engine × FormState) :=
  let e₁ := markDirty e (updatedState gen message e.current_state)
  if save then
    match saveCurrentState schema none false w e₁ with
    | .error () => .error ()
    | .ok s => .ok (s.1, s.2, s.2.current_state)
  else .ok (w, e₁, e₁.current_state)

/-- `BaseProgressForm.process_form`: refreshes the current state, then
runs the internal processing with `save=True`. -/
def processForm (schema : FormSchema) (gen : String → FormState → FormState)
    (message : String) (w : World) (e : Engine) :
    Except Unit (World × Engine × FormState) :=
  let r := refreshCurrentState schema w e
  processFormInternal schema gen message true r.1 r.2.1

/-- The structured classification returned by the Generation Service in
`determine_action`. -/
structure OrchestratorAction where
  tool_name : String
  confidence : Int
  reasoning : String

/-- A registered tool: its `__name__` and its bound callable. -/
structure RegisteredTool where
  name : String
  run : World → Engine → String → Except Unit (World × Engine × FormState)

/-- `BaseProgressForm.determine_action` (no explicit `session_id`):
refreshes state, looks the classified `tool_name` up in the registered
tools, runs it, marks the state dirty and saves; an unknown tool name
falls back to `process_form` on the message. -/
def determineAction (schema : FormSchema) (gen : String → FormState → FormState)
    (tools : List RegisteredTool) (action : OrchestratorAction)
    (message : String) (w : World) (e : Engine) :
    Except Unit (World × Engine × FormState) :=
  let r := refreshCurrentState schema w e
  match tools.find? (fun t => t.name == action.tool_name) with
  | some t =>
    match t.run r.1 r.2.1 message with
    | .error () => .error ()
    | .ok s =>
      let e₃ := { s.2.1 with state_dirty := true }
      match saveCurrentState schema none false s.1 e₃ with
      | .error () => .error ()
      | .ok s' => .ok (s'.1, s'.2, s.2.2)
  | none => processForm schema gen message r.1 r.2.1

/-! ## Concrete instances used in witnesses and counterexamples -/

/-- A concrete form class that accepts any form dictionary verbatim. -/
def schemaAny : FormSchema :=
  { name := "TestForm", parse := fun v => some v, empty := .jdict [] }

/-- A world with an empty database and caches, at clock 0, store healthy. -/
def emptyWorld : World :=
  { db := { sessions := [], states := [], nextId := 0 },
    stateCache := [], clock := 0, storeDown := false }

/-- The empty world with the store unavailable. -/
def worldDown : World :=
  { emptyWorld with storeDown := true }

/-- A manager bound to an explicit session id that is not in the store. -/
def mgrMissing : Manager :=
  { session_id := some "missing", cachedSession := none,
    last_state_fetch_time := 0, last_state := none }

/-- A manager with no session bound yet. -/
def mgrFresh : Manager :=
  { session_id := none, cachedSession := none,
    last_state_fetch_time := 0, last_state := none }

/-- A concrete non-default in-memory state (progress 42). -/
def stateS : FormState :=
  { form := .jdict [("x", .jstr "v")], progress := 42, prev_question := "pq",
    prev_answer := "pa", feedback := "", confidence := 1,
    next_question := "nq", next_question_explanation := "" }

/-- An engine bound to session id `A` holding `stateS`, dirty. -/
def engineA : Engine :=
  { mgr := { session_id := some "A", cachedSession := none,
             last_state_fetch_time := 0, last_state := none },
    current_state := stateS, state_dirty := true,
    user_id := none, client_id := none }

/-- A body that raises inside a temporary-session scope. -/
def bodyRaise : World → Engine → World × Engine × Except Unit Unit :=
  fun w e => (w, e, Except.error ())

/-- An existing session row with id `A`. -/
def sessA : DBSession :=
  { id := "A", user_id := none, client_id := none, form_class := none,
    active := true, created_at := 0, last_active := 0 }

/-- An existing session row with id `B`. -/
def sessB : DBSession :=
  { id := "B", user_id := none, client_id := none, form_class := none,
    active := true, created_at := 0, last_active := 0 }

/-- A world where the latest (only) snapshot of session `A` is text that
is not valid JSON. -/
def worldCorrupt : World :=
  { db := { sessions := [sessA],
            states := [{ session_id := "A", state_data := .corrupt "oops",
                         progress := some 42, timestamp := 1 }],
            nextId := 1 },
    stateCache := [], clock := 100, storeDown := false }

/-- An engine bound to session `A` holding `stateS`, clean. -/
def engineBoundA : Engine :=
  { mgr := { session_id := some "A", cachedSession := none,
             last_state_fetch_time := 0, last_state := none },
    current_state := stateS, state_dirty := false,
    user_id := none, client_id := none }

/-- An engine not yet bound to any session, holding the fresh state. -/
def engineFresh : Engine :=
  { mgr := mgrFresh, current_state := freshState schemaAny, state_dirty := false,
    user_id := none, client_id := none }

/-- A Generation Service result that keeps the form and reports
progress 50 with a follow-up question. -/
def gen50 : String → FormState → FormState :=
  fun _ st => { st with progress := 50, next_question := "next-q" }

/-- A Generation Service result that is the same serializable state for
every input. -/
def genConst : String → FormState → FormState :=
  fun _ _ =>
    { form := .jdict [("desc", .jstr "d")], progress := 50, prev_question := "",
      prev_answer := "", feedback := "", confidence := 1,
      next_question := "q", next_question_explanation := "" }

/-- A Generation Service result that reports an out-of-range progress. -/
def gen150 : String → FormState → FormState :=
  fun _ st => { st with progress := 150 }

/-- The always-registered default tool, under its Python name. -/
def toolProcessForm : RegisteredTool :=
  { name := "process_form",
    run := fun w e msg => processFormInternal schemaAny genConst msg true w e }

/-- A classification that names a tool that is not registered. -/
def actionUnknown : OrchestratorAction :=
  { tool_name := "unknown_tool", confidence := 1, reasoning := "r" }

/-- The locally cached snapshot of session `A` (a truthy dict). -/
def stateA : PyVal := .jdict [("progress", .jint 42)]

/-- A manager bound to `A` whose instance-local cache holds `A`'s state,
fetched 5 clock units ago (within the 30-unit TTL). -/
def mgrStaleA : Manager :=
  { session_id := some "A", cachedSession := none,
    last_state_fetch_time := 5, last_state := some stateA }

/-- A world containing sessions `A` and `B` where `B` has no snapshots. -/
def worldAB : World :=
  { db := { sessions := [sessA, sessB], states := [], nextId := 2 },
    stateCache := [], clock := 10, storeDown := false }

/-- `mgrStaleA` as `temporary_session("B")` rebinds it, but with the
instance-local cache cleared (what a session-keyed cache would give). -/
def mgrSwitchedB : Manager :=
  { session_id := some "B", cachedSession := none,
    last_state_fetch_time := 5, last_state := none }

/-! ## Structural lemmas -/

theorem getSession_world_fields (w : World) (m : Manager) (b : Bool)
    (u c f : Option String) :
    (getSession w m b u c f).1.db.states = w.db.states ∧
    (getSession w m b u c f).1.stateCache = w.stateCache ∧
    (getSession w m b u c f).1.clock = w.clock ∧
    (getSession w m b u c f).1.storeDown = w.storeDown := by
  unfold getSession createSession
  repeat' split
  all_goals try simp
  all_goals (cases hf : findSession w.db _ <;> simp)

theorem getSession_create_isSome (w : World) (m : Manager)
    (u c f : Option String) :
    (getSession w m true u c f).2.2.isSome = true := by
  unfold getSession createSession
  repeat' split
  all_goals try simp_all
  all_goals (cases hf : findSession w.db _ <;> simp)

theorem getSession_create_eq_some (w : World) (m : Manager)
    (u c f : Option String) :
    ∃ s, (getSession w m true u c f).2.2 = some s := by
  have h := getSession_create_isSome w m u c f
  exact Option.isSome_iff_exists.mp h

theorem updateSessionActivity_world_fields (w : World) (m : Manager) :
    (updateSessionActivity w m).1.db.states = w.db.states ∧
    (updateSessionActivity w m).1.stateCache = w.stateCache ∧
    (updateSessionActivity w m).1.clock = w.clock ∧
    (updateSessionActivity w m).1.storeDown = w.storeDown := by
  obtain ⟨h1, h2, h3, h4⟩ := getSession_world_fields w m false none none none
  simp only [updateSessionActivity]
  split
  · exact ⟨h1, h2, h3, h4⟩
  · split
    · exact ⟨h1, h2, h3, h4⟩
    · exact ⟨h1, h2, h3, h4⟩

theorem dump_serializable (st : FormState) :
    st.dump.serializable = st.form.serializable := by
  simp [FormState.dump, PyVal.serializable, serializableKVs]

theorem saveState_isOk (w : World) (m : Manager) (input : SaveInput) (p : Option Int)
    (u c f : Option String)
    (hin : ∀ v, input = SaveInput.dict v → v.serializable = true) :
    (saveState w m input p u c f).isOk = true := by
  obtain ⟨s, hs⟩ := getSession_create_eq_some w m u c f
  cases input with
  | text sd =>
    simp only [saveState, hs]
    split <;> try rfl
    all_goals (split <;> rfl)
  | dict v =>
    have hv := hin v rfl
    simp only [saveState, hs, jsonDumps, hv, if_true, jsonLoads]
    split <;> rfl

theorem saveState_dict_storeUp (w : World) (m : Manager) (v : PyVal) (p : Option Int)
    (u c f : Option String) (hv : v.serializable = true) (hsd : w.storeDown = false) :
    ∃ w' m', saveState w m (.dict v) p u c f = .ok (w', m', true) ∧
      w'.db.states.length = w.db.states.length + 1 ∧
      w'.storeDown = false := by
  obtain ⟨s, hs⟩ := getSession_create_eq_some w m u c f
  obtain ⟨g1, g2, g3, g4⟩ := getSession_world_fields w m true u c f
  obtain ⟨u1, u2, u3, u4⟩ := updateSessionActivity_world_fields
    (getSession w m true u c f).1 (getSession w m true u c f).2.1
  have hsd2 : (updateSessionActivity (getSession w m true u c f).1
      (getSession w m true u c f).2.1).1.storeDown = false := by
    rw [u4, g4, hsd]
  simp only [saveState, hs, jsonDumps, hv, if_true, jsonLoads, hsd2]
  refine ⟨_, _, rfl, ?_, ?_⟩
  · simp [u1, g1]
  · simp [u4, g4, hsd]

theorem saveState_dict_storeDown (w : World) (m : Manager) (v : PyVal) (p : Option Int)
    (u c f : Option String) (hv : v.serializable = true) (hsd : w.storeDown = true) :
    ∃ w' m', saveState w m (.dict v) p u c f = .ok (w', m', false) ∧
      w'.db.states = w.db.states := by
  obtain ⟨s, hs⟩ := getSession_create_eq_some w m u c f
  obtain ⟨g1, g2, g3, g4⟩ := getSession_world_fields w m true u c f
  obtain ⟨u1, u2, u3, u4⟩ := updateSessionActivity_world_fields
    (getSession w m true u c f).1 (getSession w m true u c f).2.1
  have hsd2 : (updateSessionActivity (getSession w m true u c f).1
      (getSession w m true u c f).2.1).1.storeDown = true := by
    rw [u4, g4, hsd]
  simp only [saveState, hs, jsonDumps, hv, if_true, jsonLoads, hsd2]
  refine ⟨_, _, rfl, ?_⟩
  rw [u1, g1]

theorem doSaveState_isOk (schema : FormSchema) (w : World) (e : Engine)
    (hser : e.current_state.dump.serializable = true) :
    (doSaveState schema w e).isOk = true := by
  have h := saveState_isOk w e.mgr (.dict e.current_state.dump)
    (some e.current_state.progress) e.user_id e.client_id (some schema.name)
    (by intro v hv; cases hv; exact hser)
  simp only [doSaveState]
  split
  · rename_i heq
    rw [heq] at h
    simpa using h
  · rfl

theorem doSaveState_ok_fields (schema : FormSchema) (w : World) (e : Engine)
    (r : World × Engine) (h : doSaveState schema w e = .ok r) :
    r.2.current_state = e.current_state ∧ r.2.state_dirty = e.state_dirty := by
  simp only [doSaveState] at h
  split at h
  · exact absurd h (by simp)
  · cases h
    exact ⟨rfl, rfl⟩

theorem doSaveState_storeUp (schema : FormSchema) (w : World) (e : Engine)
    (hser : e.current_state.dump.serializable = true) (hsd : w.storeDown = false) :
    ∃ r, doSaveState schema w e = .ok r ∧
      r.1.db.states.length = w.db.states.length + 1 ∧
      r.2.current_state = e.current_state ∧ r.2.state_dirty = e.state_dirty := by
  obtain ⟨w', m', hss, hlen, _⟩ := saveState_dict_storeUp w e.mgr e.current_state.dump
    (some e.current_state.progress) e.user_id e.client_id (some schema.name) hser hsd
  refine ⟨(w', { e with mgr := m' }), ?_, hlen, rfl, rfl⟩
  simp only [doSaveState, hss]

theorem doSaveState_storeDown (schema : FormSchema) (w : World) (e : Engine)
    (hser : e.current_state.dump.serializable = true) (hsd : w.storeDown = true) :
    ∃ r, doSaveState schema w e = .ok r ∧
      r.1.db.states = w.db.states ∧
      r.2.current_state = e.current_state ∧ r.2.state_dirty = e.state_dirty := by
  obtain ⟨w', m', hss, hst⟩ := saveState_dict_storeDown w e.mgr e.current_state.dump
    (some e.current_state.progress) e.user_id e.client_id (some schema.name) hser hsd
  refine ⟨(w', { e with mgr := m' }), ?_, hst, rfl, rfl⟩
  simp only [doSaveState, hss]

theorem saveCurrentState_not_dirty (schema : FormSchema) (w : World) (e : Engine)
    (hd : e.state_dirty = false) :
    saveCurrentState schema none false w e = .ok (w, e) := by
  simp [saveCurrentState, hd]

theorem saveCurrentState_dirty_storeUp (schema : FormSchema) (w : World) (e : Engine)
    (hd : e.state_dirty = true)
    (hser : e.current_state.dump.serializable = true) (hsd : w.storeDown = false) :
    ∃ w' e', saveCurrentState schema none false w e = .ok (w', e') ∧
      w'.db.states.length = w.db.states.length + 1 ∧
      e'.state_dirty = false ∧ e'.current_state = e.current_state := by
  obtain ⟨r, hr, hlen, hcs, _⟩ := doSaveState_storeUp schema w e hser hsd
  refine ⟨r.1, { r.2 with state_dirty := false }, ?_, hlen, rfl, hcs⟩
  simp [saveCurrentState, hd, hr]

theorem saveCurrentState_dirty_storeDown (schema : FormSchema) (w : World) (e : Engine)
    (hd : e.state_dirty = true)
    (hser : e.current_state.dump.serializable = true) (hsd : w.storeDown = true) :
    ∃ w' e', saveCurrentState schema none false w e = .ok (w', e') ∧
      w'.db.states = w.db.states ∧
      e'.state_dirty = false ∧ e'.current_state = e.current_state := by
  obtain ⟨r, hr, hst, hcs, _⟩ := doSaveState_storeDown schema w e hser hsd
  refine ⟨r.1, { r.2 with state_dirty := false }, ?_, hst, rfl, hcs⟩
  simp [saveCurrentState, hd, hr]

theorem saveCurrentState_ok_fields (schema : FormSchema) (w : World) (e : Engine)
    (w' : World) (e' : Engine)
    (h : saveCurrentState schema none false w e = .ok (w', e')) :
    e'.current_state = e.current_state ∧ e'.state_dirty = false := by
  by_cases hd : e.state_dirty = true
  · simp only [saveCurrentState, hd, Bool.not_true, Bool.false_and,
      Bool.not_false, if_neg] at h
    · cases hds : doSaveState schema w e with
      | error u =>
        rw [hds] at h
        simp at h
      | ok r =>
        rw [hds] at h
        obtain ⟨hc, _⟩ := doSaveState_ok_fields schema w e r hds
        cases h
        exact ⟨hc, rfl⟩
  · have hd' : e.state_dirty = false := by
      revert hd; cases e.state_dirty <;> simp
    rw [saveCurrentState_not_dirty schema w e hd'] at h
    cases h
    exact ⟨rfl, hd'⟩

theorem refreshCurrentState_cases (schema : FormSchema) (w : World) (e : Engine) :
    (refreshCurrentState schema w e).2.2 = true ∨
    (refreshCurrentState schema w e).2.1.current_state = e.current_state := by
  simp only [refreshCurrentState]
  repeat' split
  all_goals simp

theorem processFormInternal_ok_spec (schema : FormSchema)
    (gen : String → FormState → FormState) (message : String)
    (w : World) (e : Engine) (w' : World) (e' : Engine) (st : FormState)
    (h : processFormInternal schema gen message true w e = .ok (w', e', st)) :
    st.prev_answer = message ∧
    st.prev_question = e.current_state.next_question ∧
    e'.current_state = st ∧ e'.state_dirty = false := by
  simp only [processFormInternal, if_true] at h
  cases hsv : saveCurrentState schema none false w
      (markDirty e (updatedState gen message e.current_state)) with
  | error u =>
    rw [hsv] at h
    simp at h
  | ok s =>
    rw [hsv] at h
    obtain ⟨hc, hdf⟩ := saveCurrentState_ok_fields schema w
      (markDirty e (updatedState gen message e.current_state)) s.1 s.2 hsv
    cases h
    refine ⟨?_, ?_, rfl, hdf⟩
    · rw [hc]
      rfl
    · rw [hc]
      rfl

theorem processForm_isOk (schema : FormSchema)
    (gen : String → FormState → FormState) (message : String)
    (w : World) (e : Engine)
    (hgen : ∀ msg st, ((gen msg st).form).serializable = true) :
    (processForm schema gen message w e).isOk = true := by
  simp only [processForm, processFormInternal, if_true]
  set r := refreshCurrentState schema w e with hr
  set e₁ : Engine := markDirty r.2.1 (updatedState gen message r.2.1.current_state)
    with he₁
  have hser : e₁.current_state.dump.serializable = true := by
    rw [dump_serializable]
    exact hgen message r.2.1.current_state
  have hd1 : e₁.state_dirty = true := rfl
  by_cases hsd : r.1.storeDown = true
  · obtain ⟨w', e', hok, _⟩ :=
      saveCurrentState_dirty_storeDown schema r.1 e₁ hd1 hser hsd
    rw [hok]
    rfl
  · have hsd' : r.1.storeDown = false := by
      revert hsd; cases r.1.storeDown <;> simp
    obtain ⟨w', e', hok, _⟩ :=
      saveCurrentState_dirty_storeUp schema r.1 e₁ hd1 hser hsd'
    rw [hok]
    rfl

/-! ## Claim theorems -/

/-- C1: for every store bound to some session `A` and engine bound to
`A` holding in-memory state `S` and dirty flag `d`, entering
`temporary_session(B)` and raising an exception inside the scope
leaves, after the scope exits, the store's bound session id equal to
`A`, the engine's in-memory state equal to `S`, and the dirty flag
equal to `d`. -/
theorem temporary_session_restores_on_exception (schema : FormSchema)
    (sid A : String) (S : FormState) (d : Bool)
    (body : World → Engine → World × Engine × Except Unit Unit)
    (w : World) (e : Engine)
    (hA : e.mgr.session_id = some A) (hS : e.current_state = S)
    (hd : e.state_dirty = d)
    (_hraises : (engineTemporarySession schema sid body w e).2.2 =
      Except.error ()) :
    (engineTemporarySession schema sid body w e).2.1.mgr.session_id = some A ∧
    (engineTemporarySession schema sid body w e).2.1.current_state = S ∧
    (engineTemporarySession schema sid body w e).2.1.state_dirty = d := by
  subst hS hd
  rw [← hA]
  exact ⟨rfl, rfl, rfl⟩

/-- Witness for C1: a concrete engine bound to `A` with a dirty
non-default state, a body that raises inside `temporary_session "B"`:
the session id, the state and the dirty flag are restored. -/
theorem temporary_session_restores_on_exception_witness :
    engineA.mgr.session_id = some "A" ∧
    (engineTemporarySession schemaAny "B" bodyRaise emptyWorld engineA).2.2 =
      Except.error () ∧
    ((engineTemporarySession schemaAny "B" bodyRaise emptyWorld
        engineA).2.1.mgr.session_id = some "A" ∧
     (engineTemporarySession schemaAny "B" bodyRaise emptyWorld
        engineA).2.1.current_state = stateS ∧
     (engineTemporarySession schemaAny "B" bodyRaise emptyWorld
        engineA).2.1.state_dirty = true) :=
  ⟨rfl, rfl,
   temporary_session_restores_on_exception schemaAny "B" "A" stateS true
     bodyRaise emptyWorld engineA rfl rfl rfl rfl⟩

/-- C2 counterexample: with the store empty and the manager bound to the
explicit unknown id `missing`, the get-or-create operation
(`get_session` with `create_if_missing=True`, its default) does not
return a not-found signal: it creates and returns a session with the
freshly generated id `session-0`, growing the session table. -/
theorem get_session_fabricates_for_unknown_id_cex :
    ((getSession emptyWorld mgrMissing true none none none).2.2.map
        (fun s => s.id)) = some "session-0" ∧
    "session-0" ≠ "missing" ∧
    (getSession emptyWorld mgrMissing true none none none).1.db.sessions.length
      = 1 := by
  refine ⟨rfl, by decide, rfl⟩

/-- C2 amended: only when `create_if_missing=False` is passed does
`get_session` report an unknown explicit session id as a not-found
signal (`None`) without touching the store; with `create_if_missing=True`
(the default) it silently creates a replacement session with a fresh
id. -/
theorem get_session_not_found_without_create (w : World) (m : Manager)
    (sid : String) (u c f : Option String)
    (hc : m.cachedSession = none) (hs : m.session_id = some sid)
    (hne : sid ≠ "") (hmiss : findSession w.db sid = none) :
    getSession w m false u c f = (w, m, none) ∧
    (getSession w m true u c f).1.db.sessions.length =
      w.db.sessions.length + 1 := by
  constructor
  · simp [getSession, hc, hs, hne, hmiss]
  · simp [getSession, createSession, hc, hs, hne, hmiss]

/-- Witness for the amended C2 at a concrete store and manager. -/
theorem get_session_not_found_without_create_witness :
    getSession emptyWorld mgrMissing false none none none =
      (emptyWorld, mgrMissing, none) ∧
    (getSession emptyWorld mgrMissing true none none none).1.db.sessions.length
      = emptyWorld.db.sessions.length + 1 :=
  get_session_not_found_without_create emptyWorld mgrMissing "missing"
    none none none rfl rfl (by decide) rfl

/-- C3 (code bug): on a dirty engine whose underlying store write fails
(`save_state` reports failure, here because the store raises inside its
write block), `save_current_state` still returns normally having written
nothing — and the in-memory dirty flag ends up `false`, not `true` as
the claim (and the spec's stated intent) requires. -/
theorem save_clears_dirty_despite_failed_write (schema : FormSchema)
    (w : World) (e : Engine)
    (hd : e.state_dirty = true) (hsd : w.storeDown = true)
    (hser : e.current_state.dump.serializable = true) :
    ∃ w' e', saveCurrentState schema none false w e = .ok (w', e') ∧
      w'.db.states = w.db.states ∧ e'.state_dirty = false := by
  obtain ⟨w', e', hok, hst, hdf, _⟩ :=
    saveCurrentState_dirty_storeDown schema w e hd hser hsd
  exact ⟨w', e', hok, hst, hdf⟩

/-- Witness for C3 at a concrete dirty engine over an unavailable
store. -/
theorem save_clears_dirty_despite_failed_write_witness :
    ∃ w' e', saveCurrentState schemaAny none false worldDown engineA =
        .ok (w', e') ∧
      w'.db.states = worldDown.db.states ∧ e'.state_dirty = false :=
  save_clears_dirty_despite_failed_write schemaAny worldDown engineA rfl rfl rfl

/-- C4: on a dirty engine (store healthy, state serializable), the
first `save_current_state()` performs exactly one underlying store
write (one appended snapshot row) and clears the dirty flag, and a
second call with no intervening mutation is a no-op returning the world
and engine unchanged. -/
theorem idempotent_save_single_write (schema : FormSchema) (w : World)
    (e : Engine) (hd : e.state_dirty = true) (hsd : w.storeDown = false)
    (hser : e.current_state.dump.serializable = true) :
    ∃ w₁ e₁, saveCurrentState schema none false w e = .ok (w₁, e₁) ∧
      w₁.db.states.length = w.db.states.length + 1 ∧
      e₁.state_dirty = false ∧
      saveCurrentState schema none false w₁ e₁ = .ok (w₁, e₁) := by
  obtain ⟨w₁, e₁, hok, hlen, hdf, _⟩ :=
    saveCurrentState_dirty_storeUp schema w e hd hser hsd
  exact ⟨w₁, e₁, hok, hlen, hdf, saveCurrentState_not_dirty schema w₁ e₁ hdf⟩

/-- Witness for C4 at a concrete dirty engine over the empty store. -/
theorem idempotent_save_single_write_witness :
    ∃ w₁ e₁, saveCurrentState schemaAny none false emptyWorld engineA =
        .ok (w₁, e₁) ∧
      w₁.db.states.length = emptyWorld.db.states.length + 1 ∧
      e₁.state_dirty = false ∧
      saveCurrentState schemaAny none false w₁ e₁ = .ok (w₁, e₁) :=
  idempotent_save_single_write schemaAny emptyWorld engineA rfl rfl rfl

/-- C5 counterexample: the engine is bound to session `A` holding a
state with progress 42; `A`'s only stored snapshot is not valid JSON.
`refresh_current_state()` returns `false` and the engine keeps the old
state with progress 42 — it is NOT left holding a fresh empty state
with progress 0 as the claim says. -/
theorem refresh_keeps_old_state_on_corrupt_cex :
    (refreshCurrentState schemaAny worldCorrupt engineBoundA).2.2 = false ∧
    (refreshCurrentState schemaAny worldCorrupt engineBoundA).2.1.current_state
      = stateS ∧
    stateS.progress = 42 ∧ (freshState schemaAny).progress = 0 :=
  ⟨rfl, rfl, rfl, rfl⟩

/-- C5 amended: `refresh_current_state()` does not raise on a corrupt
latest snapshot; it returns `false` and leaves the in-memory state
unchanged (the fresh-empty-state fallback belongs to session
restoration, `_restore_latest_state_from_db`, not to refresh). -/
theorem refresh_failure_leaves_state_unchanged (schema : FormSchema)
    (w : World) (e : Engine)
    (h : (refreshCurrentState schema w e).2.2 = false) :
    (refreshCurrentState schema w e).2.1.current_state = e.current_state := by
  rcases refreshCurrentState_cases schema w e with ht | hu
  · rw [h] at ht
    exact absurd ht (by simp)
  · exact hu

/-- Witness for the amended C5 at the corrupt-snapshot store. -/
theorem refresh_failure_leaves_state_unchanged_witness :
    (refreshCurrentState schemaAny worldCorrupt engineBoundA).2.1.current_state
      = engineBoundA.current_state :=
  refresh_failure_leaves_state_unchanged schemaAny worldCorrupt engineBoundA rfl

/-- C6 counterexample: a concrete successful `process_form` run ends
with the engine's dirty flag `false`, not `true` as claimed — step (7)
persists the state before returning, which clears the flag (the
prev-answer carry does hold). -/
theorem process_form_dirty_cleared_cex :
    ((processForm schemaAny gen50 "hello" emptyWorld engineFresh).toOption.map
      (fun r => r.2.1.state_dirty)) = some false ∧
    ((processForm schemaAny gen50 "hello" emptyWorld engineFresh).toOption.map
      (fun r => r.2.2.prev_answer)) = some "hello" :=
  ⟨rfl, rfl⟩

/-- C6 amended: whenever `process_form` returns a state, that state has
`prev_answer = message` and `prev_question` equal to the
`next_question` of the state current immediately before processing
(after the initial refresh), and it is installed as the current state;
the dirty flag is set during processing but the automatic persist at
the end of `process_form` leaves it `false` on return. -/
theorem process_form_updates_history_and_persists (schema : FormSchema)
    (gen : String → FormState → FormState) (message : String)
    (w : World) (e : Engine) (w' : World) (e' : Engine) (st : FormState)
    (h : processForm schema gen message w e = .ok (w', e', st)) :
    st.prev_answer = message ∧
    st.prev_question =
      (refreshCurrentState schema w e).2.1.current_state.next_question ∧
    e'.current_state = st ∧ e'.state_dirty = false := by
  simp only [processForm] at h
  exact processFormInternal_ok_spec schema gen message
    (refreshCurrentState schema w e).1 (refreshCurrentState schema w e).2.1
    w' e' st h

/-- Witness for the amended C6 at a concrete run. -/
theorem process_form_updates_history_and_persists_witness :
    ((processForm schemaAny gen50 "hi" emptyWorld engineFresh).toOption.map
      (fun r => r.2.2.prev_answer)) = some "hi" := by
  cases hp : processForm schemaAny gen50 "hi" emptyWorld engineFresh with
  | error u =>
    have hok : (processForm schemaAny gen50 "hi" emptyWorld
        engineFresh).isOk = true := rfl
    rw [hp] at hok
    cases u
    exact absurd hok (by decide)
  | ok r =>
    obtain ⟨h1, _, _, _⟩ :=
      process_form_updates_history_and_persists schemaAny gen50 "hi"
        emptyWorld engineFresh r.1 r.2.1 r.2.2 hp
    simp [Except.toOption, h1]

/-- C7 counterexample: `save_state` called with a dict containing a
non-JSON-serializable value raises (the `json.dumps` call sits outside
the `try` block) instead of reporting the failure as a return value. -/
theorem save_state_serialization_error_raises_cex :
    saveState emptyWorld mgrFresh (.dict (.jdict [("bad", .blob)]))
      none none none none = .error () := rfl

/-- C7 amended: `save_state` reports failures inside its write block
(store unavailable, undecodable string input) as a `False` return
value, and never raises provided the input serializes — but a
serialization error on a dict input propagates as an exception. -/
theorem save_state_reports_failure_without_raising (w : World) (m : Manager)
    (input : SaveInput) (p : Option Int) (u c f : Option String)
    (hin : ∀ v, input = SaveInput.dict v → v.serializable = true) :
    (saveState w m input p u c f).isOk = true :=
  saveState_isOk w m input p u c f hin

/-- Witness for the amended C7: a string input that fails to decode is
reported (the call returns `ok` with result `false`), not raised. -/
theorem save_state_reports_failure_without_raising_witness :
    (saveState emptyWorld mgrFresh (.text (.corrupt "bad"))
        none none none none).isOk = true ∧
    ((saveState emptyWorld mgrFresh (.text (.corrupt "bad"))
        none none none none).toOption.map (fun r => r.2.2)) = some false :=
  ⟨save_state_reports_failure_without_raising emptyWorld mgrFresh
     (.text (.corrupt "bad")) none none none none (fun v h => by cases h),
   rfl⟩

/-- C8: when the classification names a tool that is not registered,
`determine_action` does not raise: it runs the default update-form tool
(`process_form`) on the message and returns its result. -/
theorem determine_action_unknown_tool_falls_back (schema : FormSchema)
    (gen : String → FormState → FormState) (tools : List RegisteredTool)
    (action : OrchestratorAction) (message : String) (w : World) (e : Engine)
    (hnone : tools.find? (fun t => t.name == action.tool_name) = none)
    (hgen : ∀ msg st, ((gen msg st).form).serializable = true) :
    determineAction schema gen tools action message w e =
      processForm schema gen message (refreshCurrentState schema w e).1
        (refreshCurrentState schema w e).2.1 ∧
    (determineAction schema gen tools action message w e).isOk = true := by
  have heq : determineAction schema gen tools action message w e =
      processForm schema gen message (refreshCurrentState schema w e).1
        (refreshCurrentState schema w e).2.1 := by
    simp only [determineAction, hnone]
  refine ⟨heq, ?_⟩
  rw [heq]
  exact processForm_isOk schema gen message (refreshCurrentState schema w e).1
    (refreshCurrentState schema w e).2.1 hgen

/-- Witness for C8: the registered list holds only `process_form`, the
classification says `unknown_tool`. -/
theorem determine_action_unknown_tool_falls_back_witness :
    determineAction schemaAny genConst [toolProcessForm] actionUnknown "msg"
        emptyWorld engineFresh =
      processForm schemaAny genConst "msg"
        (refreshCurrentState schemaAny emptyWorld engineFresh).1
        (refreshCurrentState schemaAny emptyWorld engineFresh).2.1 ∧
    (determineAction schemaAny genConst [toolProcessForm] actionUnknown "msg"
        emptyWorld engineFresh).isOk = true :=
  determine_action_unknown_tool_falls_back schemaAny genConst [toolProcessForm]
    actionUnknown "msg" emptyWorld engineFresh rfl (fun _ _ => rfl)

/-- C9 counterexample: a Generation Service result with progress 150
flows through `process_form` unchecked — the returned (and installed)
state has progress 150, and the persisted snapshot row records
progress 150, outside the claimed 0–100 range. -/
theorem progress_out_of_range_accepted_cex :
    ((processForm schemaAny gen150 "m" emptyWorld engineFresh).toOption.map
      (fun r => r.2.2.progress)) = some 150 ∧
    ((processForm schemaAny gen150 "m" emptyWorld engineFresh).toOption.map
      (fun r => r.1.db.states.map (fun row => row.progress)))
      = some [some 150] ∧
    ¬ ((150 : Int) ≤ 100) :=
  ⟨rfl, rfl, by decide⟩

/-- C9 amended: the engine does not enforce the 0–100 progress range.
`FormState` declares no bounds on `progress` (only `confidence` is
validated), and state restoration accepts any integer progress
verbatim. -/
theorem build_form_state_accepts_any_progress (schema : FormSchema)
    (n : Int) (fv : PyVal) (hp : schema.parse (.jdict []) = some fv) :
    buildFormState schema (.jdict [("progress", .jint n)]) =
      some { form := fv, progress := n, prev_question := "", prev_answer := "",
             feedback := "", confidence := 0, next_question := "",
             next_question_explanation := "" } := by
  simp [buildFormState, dictLookup, getIntD, getStrD, hp]

/-- Witness for the amended C9 with the out-of-range progress 150. -/
theorem build_form_state_accepts_any_progress_witness :
    buildFormState schemaAny (.jdict [("progress", .jint 150)]) =
      some { form := .jdict [], progress := 150, prev_question := "",
             prev_answer := "", feedback := "", confidence := 0,
             next_question := "", next_question_explanation := "" } :=
  build_form_state_accepts_any_progress schemaAny 150 (.jdict []) rfl

/-- C10 (code bug): the manager is bound to `A` with `A`'s state in its
instance-local cache, fetched within the TTL; session `B` has no
snapshots at all.  Inside `temporary_session("B")`,
`get_latest_state(use_cache=True)` returns `A`'s cached state — a state
that is not a snapshot of the currently bound session `B` — because the
instance-local `_last_state` cache is neither keyed by session nor
cleared on the switch. -/
theorem temporary_session_serves_stale_local_cache :
    (temporarySessionM worldAB mgrStaleA "B"
        (fun w m => getLatestState w m true)).2.2 = some stateA ∧
    latestRowFor worldAB.db.states "B" = none ∧
    (getLatestState worldAB mgrSwitchedB true).2.2 = none :=
  ⟨rfl, rfl, rfl⟩

end Pydantic2
